import Mathlib

/-!
Shallow embedding of `src/sagemaker_xgboost_container/training.py` from the
sagemaker-xgboost-container repository, together with proofs about the
mode-dispatch and configuration-assembly orchestrator (`run_algorithm_mode`,
`train`, `validateMlFlowParameters`).

The Python module is modelled as a computation over an explicit `World`
(environment variables, file system contents, the JSON parser, and the
outcome of the external delegate calls).  Executing the module produces a
trace of observable events (file reads, tracking-client calls, the scoped
tracking run, delegate invocations) together with a result that is either
success or the first raised error, mirroring Python exception propagation.
-/

namespace SMXGB

/-- JSON values, as produced by Python's `json.load` / `json.loads`. -/
inductive JValue where
  | str : String → JValue
  | num : Int → JValue
  | bool : Bool → JValue
  | null : JValue
  | arr : List JValue → JValue
  | obj : List (String × JValue) → JValue

/-- A Python dict of JSON data (insertion-ordered association list with
unique keys, as `json.load` yields for a JSON object). -/
abbrev Config := List (String × JValue)

/-- Python runtime values as far as `validateMlFlowParameters` can observe
them: `None`, a JSON value, or a list of values.  Only `PyVal.none` is the
Python `None` object. -/
inductive PyVal where
  | none : PyVal
  | val : JValue → PyVal
  | list : List PyVal → PyVal

/-- The Python `x is None` test. -/
def PyVal.isNone : PyVal → Bool
  | PyVal.none => true
  | _ => false

/-- Coerce the result of `dict.pop(key, None)` to a Python value. -/
def optToPy : Option JValue → PyVal
  | Option.none => PyVal.none
  | Option.some v => PyVal.val v

/-- Errors the module can raise, mirroring the Python exception classes:
`TypeError` (e.g. `open(None)` / `os.path.exists(None)`), `FileNotFoundError`,
`json.JSONDecodeError`, `AttributeError` (calling `.pop` on a non-dict),
`KeyError` from `os.environ[...]` (the missing-environment-variable error),
`sagemaker_algorithm_toolkit.exceptions.UserError`, and opaque errors raised
by the external delegate (`sagemaker_train`) or module runner. -/
inductive Err where
  | typeError : Err
  | fileNotFound : String → Err
  | jsonDecodeError : String → Err
  | attributeError : Err
  | keyError : String → Err
  | userError : String → Err
  | delegateError : Err
  | moduleError : Err

/-- The keyword arguments of the `sagemaker_train(...)` call in
`run_algorithm_mode` (the `mlflowClient` argument is the `mlflow` module
handle, a constant, and carries no data in the model). -/
structure TrainArgs where
  train_config : Config
  data_config : JValue
  train_path : String
  val_path : Option String
  model_dir : Option String
  sm_hosts : JValue
  sm_current_host : String
  checkpoint_config : JValue
  modelName : Option JValue

/-- Observable events of one invocation, in program order. -/
inductive Event where
  | readTrainConfigFile : Event
  | validateTracking : List PyVal → Event
  | mlflowSetTrackingUri : PyVal → Event
  | mlflowSetExperiment : PyVal → Event
  | mlflowStartRun : Event
  | readDataConfigFile : Event
  | checkpointPathCheck : Event
  | readCheckpointConfigFile : Event
  | resolveTopologyAndPaths : Event
  | callSagemakerTrain : TrainArgs → Event
  | mlflowEndRun : Event
  | callRunModule : String → List String → List (String × String) → String → Bool → Event
  | writeEnvVars : List (String × String) → Event

/-- Is this event the acquisition of the scoped tracking run
(`mlflow.start_run().__enter__`)? -/
def Event.isStartRun : Event → Bool
  | Event.mlflowStartRun => true
  | _ => false

/-- Is this event the release of the scoped tracking run? -/
def Event.isEndRun : Event → Bool
  | Event.mlflowEndRun => true
  | _ => false

/-- Is this event an invocation of the delegate trainer `sagemaker_train`? -/
def Event.isDelegateCall : Event → Bool
  | Event.callSagemakerTrain _ => true
  | _ => false

/-- Is this event file I/O (or the existence probe) for the data
configuration or the checkpoint configuration? -/
def Event.isDataOrCheckpointIO : Event → Bool
  | Event.readDataConfigFile => true
  | Event.checkpointPathCheck => true
  | Event.readCheckpointConfigFile => true
  | _ => false

/-- Result of running a fragment of the module: the trace of events it
emitted and either a value or the Python exception that propagated. -/
structure Tr (α : Type) where
  trace : List Event
  result : Except Err α

/-- Sequencing: a raised exception skips the rest of the fragment; traces
concatenate. -/
def Tr.bind {α β : Type} (r : Tr α) (k : α → Tr β) : Tr β :=
  match r.result with
  | Except.error e => ⟨r.trace, Except.error e⟩
  | Except.ok a => ⟨r.trace ++ (k a).trace, (k a).result⟩

instance : Monad Tr where
  pure a := ⟨[], Except.ok a⟩
  bind := Tr.bind

/-- Emit one observable event. -/
def emit (e : Event) : Tr Unit := ⟨[e], Except.ok ()⟩

/-- Raise a Python exception. -/
def trFail {α : Type} (e : Err) : Tr α := ⟨[], Except.error e⟩

/-- Lift a pure fallible computation. -/
def liftE {α : Type} (r : Except Err α) : Tr α := ⟨[], r⟩

/-- The state of the outside world one invocation runs against:
`env` is `os.environ`; `fileExists` is `os.path.exists`; `fileContent p`
is the JSON value `json.load` yields for the file at `p` (`none` when the
content is not valid JSON); `jsonLoads` is Python's `json.loads` on
strings; `delegateRaises` / `moduleRaises` say whether the external
`sagemaker_train` / `run_module` call raises. -/
structure World where
  env : String → Option String
  fileExists : String → Bool
  fileContent : String → Option JValue
  jsonLoads : String → Option JValue
  delegateRaises : Bool
  moduleRaises : Bool

/-! Environment-variable names, from the constants the module reads
(`sm_env_constants`); the `mlflow_constants` key names are taken from the
module's docstring, which lists `TRACKING_URI`, `EXPERIMENT_NAME` and
`MODEL_NAME` among the elements parsed for training. -/

def SM_INPUT_TRAINING_CONFIG_FILE : String := "SM_INPUT_TRAINING_CONFIG_FILE"

def SM_INPUT_DATA_CONFIG_FILE : String := "SM_INPUT_DATA_CONFIG_FILE"

def SM_CHECKPOINT_CONFIG_FILE : String := "SM_CHECKPOINT_CONFIG_FILE"

def SM_CHANNEL_TRAIN : String := "SM_CHANNEL_TRAIN"

def SM_CHANNEL_VALIDATION : String := "SM_CHANNEL_VALIDATION"

def SM_HOSTS : String := "SM_HOSTS"

def SM_CURRENT_HOST : String := "SM_CURRENT_HOST"

def SM_MODEL_DIR : String := "SM_MODEL_DIR"

def MLF_TRACKING_URI : String := "TRACKING_URI"

def MLF_EXPERIMENT_NAME : String := "EXPERIMENT_NAME"

def MLF_MODEL_NAME : String := "MODEL_NAME"

/-- The message of the `UserError` raised by `validateMlFlowParameters`
(the f-string's interpolations resolved; insignificant whitespace elided).
It names all three expected hyperparameter keys. -/
def mlflowParamsErrorMessage : String :=
  "One or Many Mlflow parameters missing, please specify them in the hyper parameters as TRACKING_URI or EXPERIMENT_NAME or MODEL_NAME"

/-- Embedding of `validateMlFlowParameters(*args)`: `args` is the tuple of
positional arguments; it raises `UserError` iff some argument is the Python
`None` object.  Note the call site in `run_algorithm_mode` passes one
positional argument, a three-element list. -/
def validateMlFlowParameters (args : List PyVal) : Except Err Unit :=
  if args.any PyVal.isNone then Except.error (Err.userError mlflowParamsErrorMessage)
  else Except.ok ()

/-- Lookup of a key in a Python dict (`cfg[k]` / the value `cfg.pop(k, None)`
returns). -/
def lookupKey : Config → String → Option JValue
  | [], _ => Option.none
  | kv :: rest, k => if kv.1 = k then Option.some kv.2 else lookupKey rest k

/-- Embedding of `cfg.pop(k, None)`: the returned value (or `None`) and the
dict with the key removed, other entries kept in order. -/
def dictPop (cfg : Config) (k : String) : Option JValue × Config :=
  (lookupKey cfg k, cfg.filter (fun kv => kv.1 != k))

/-- The value `train_config.pop(MLF_TRACKING_URI, None)` yields. -/
def poppedTrackingUri (cfg0 : Config) : Option JValue :=
  (dictPop cfg0 MLF_TRACKING_URI).1

/-- The value the second pop, `train_config.pop(MLF_EXPERIMENT_NAME, None)`,
yields (after the first pop has removed the tracking-URI key). -/
def poppedExperimentName (cfg0 : Config) : Option JValue :=
  (dictPop (dictPop cfg0 MLF_TRACKING_URI).2 MLF_EXPERIMENT_NAME).1

/-- The value the third pop, `train_config.pop(MLF_MODEL_NAME, None)`,
yields. -/
def poppedModelName (cfg0 : Config) : Option JValue :=
  (dictPop (dictPop (dictPop cfg0 MLF_TRACKING_URI).2 MLF_EXPERIMENT_NAME).2 MLF_MODEL_NAME).1

/-- The training configuration after the three tracking keys have been
popped: what `train_config` refers to at the `sagemaker_train` call. -/
def strippedConfig (cfg0 : Config) : Config :=
  (dictPop (dictPop (dictPop cfg0 MLF_TRACKING_URI).2 MLF_EXPERIMENT_NAME).2 MLF_MODEL_NAME).2

/-- The single positional argument of the `validateMlFlowParameters` call:
a Python list holding the three popped values. -/
def trackingArgsList (cfg0 : Config) : List PyVal :=
  [PyVal.list [optToPy (poppedTrackingUri cfg0), optToPy (poppedExperimentName cfg0),
    optToPy (poppedModelName cfg0)]]

/-- Embedding of `with open(path, "r") as f: json.load(f)`.
`open(None)` raises `TypeError` before any file I/O; otherwise the open is
attempted (event `ev`), failing with `FileNotFoundError` for a missing file
and `json.JSONDecodeError` for invalid content. -/
def openAndLoadJson (ev : Event) (w : World) (path : Option String) : Tr JValue :=
  match path with
  | Option.none => trFail Err.typeError
  | Option.some p =>
      if w.fileExists p then
        match w.fileContent p with
        | Option.some v => ⟨[ev], Except.ok v⟩
        | Option.none => ⟨[ev], Except.error (Err.jsonDecodeError p)⟩
      else ⟨[ev], Except.error (Err.fileNotFound p)⟩

/-- Requiring the loaded JSON to be a dict: the subsequent `.pop` attribute
accesses raise `AttributeError` on any other value. -/
def asDict (v : JValue) : Tr Config :=
  match v with
  | JValue.obj cfg0 => pure cfg0
  | _ => trFail Err.attributeError

/-- Lines 51-52: open the file named by `os.getenv(SM_INPUT_TRAINING_CONFIG_FILE)`
and `json.load` it; the subsequent `.pop` calls require a dict. -/
def loadTrainingConfigFile (w : World) : Tr Config := do
  let v ← openAndLoadJson Event.readTrainConfigFile w (w.env SM_INPUT_TRAINING_CONFIG_FILE)
  asDict v

/-- Lines 51-59 of `run_algorithm_mode`: load the training configuration,
pop the three tracking keys, call `validateMlFlowParameters` on the list of
popped values, and configure the tracking client.  Returns the stripped
configuration and the popped model name. -/
def preScope (w : World) : Tr (Config × Option JValue) := do
  let cfg0 ← loadTrainingConfigFile w
  emit (Event.validateTracking (trackingArgsList cfg0))
  liftE (validateMlFlowParameters (trackingArgsList cfg0))
  emit (Event.mlflowSetTrackingUri (optToPy (poppedTrackingUri cfg0)))
  emit (Event.mlflowSetExperiment (optToPy (poppedExperimentName cfg0)))
  pure (strippedConfig cfg0, poppedModelName cfg0)

/-- Lines 65-70: `os.getenv(SM_CHECKPOINT_CONFIG_FILE)` then
`os.path.exists` on it (`TypeError` when the variable is unset, since
`os.stat(None)` raises `TypeError`, which `os.path.exists` does not
swallow); if the file exists it is opened and parsed, otherwise the
checkpoint configuration defaults to the empty dict. -/
def loadCheckpointConfig (w : World) : Tr JValue :=
  match w.env SM_CHECKPOINT_CONFIG_FILE with
  | Option.none => trFail Err.typeError
  | Option.some p => do
      emit Event.checkpointPathCheck
      if w.fileExists p then openAndLoadJson Event.readCheckpointConfigFile w (Option.some p)
      else pure (JValue.obj [])

/-- Embedding of `os.environ[k]`: `KeyError` when the variable is unset. -/
def environGet (w : World) (k : String) : Tr String :=
  match w.env k with
  | Option.some v => ⟨[], Except.ok v⟩
  | Option.none => ⟨[], Except.error (Err.keyError k)⟩

/-- Embedding of `json.loads(s)`. -/
def pyJsonLoads (w : World) (s : String) : Tr JValue :=
  match w.jsonLoads s with
  | Option.some v => ⟨[], Except.ok v⟩
  | Option.none => ⟨[], Except.error (Err.jsonDecodeError s)⟩

/-- The external delegate call `sagemaker_train(...)` (lines 81-86); any
exception it raises propagates uncaught. -/
def callSagemakerTrain (w : World) (args : TrainArgs) : Tr Unit :=
  ⟨[Event.callSagemakerTrain args],
    if w.delegateRaises then Except.error Err.delegateError else Except.ok ()⟩

/-- Lines 72-86: resolve the topology and path environment variables in
source order, then invoke `sagemaker_train` with the assembled keyword
arguments. -/
def resolveAndInvoke (w : World) (train_config : Config) (model_name : Option JValue)
    (data_config checkpoint_config : JValue) : Tr Unit := do
  emit Event.resolveTopologyAndPaths
  let train_path ← environGet w SM_CHANNEL_TRAIN
  let val_path := w.env SM_CHANNEL_VALIDATION
  let hostsRaw ← environGet w SM_HOSTS
  let sm_hosts ← pyJsonLoads w hostsRaw
  let sm_current_host ← environGet w SM_CURRENT_HOST
  let model_dir := w.env SM_MODEL_DIR
  callSagemakerTrain w
    { train_config := train_config, data_config := data_config, train_path := train_path,
      val_path := val_path, model_dir := model_dir, sm_hosts := sm_hosts,
      sm_current_host := sm_current_host, checkpoint_config := checkpoint_config,
      modelName := model_name }

/-- Lines 62-86, the body of `with mlflow.start_run():` — load the data
configuration, load the checkpoint configuration conditionally, resolve the
environment variables and invoke the delegate trainer. -/
def inScope (w : World) (train_config : Config) (model_name : Option JValue) : Tr Unit := do
  let data_config ← openAndLoadJson Event.readDataConfigFile w (w.env SM_INPUT_DATA_CONFIG_FILE)
  let checkpoint_config ← loadCheckpointConfig w
  resolveAndInvoke w train_config model_name data_config checkpoint_config

/-- Embedding of `with mlflow.start_run(): body` — the run is opened, the
body executes, and the run is ended on every exit path; an exception from
the body propagates after the run has ended. -/
def withScope {α : Type} (body : Tr α) : Tr α :=
  ⟨Event.mlflowStartRun :: body.trace ++ [Event.mlflowEndRun], body.result⟩

/-- Embedding of `run_algorithm_mode()` (lines 31-86). -/
def run_algorithm_mode (w : World) : Tr Unit := do
  let x ← preScope w
  withScope (inScope w x.1 x.2)

/-- The training environment object handed to `train`, with the results of
its accessor calls (`to_cmd_args()`, `to_env_vars()`). -/
structure TrainingEnvironment where
  user_entry_point : Option String
  module_dir : String
  cmd_args : List String
  env_vars : List (String × String)
  module_name : String

/-- Embedding of `train(training_environment)` (lines 89-107): if a user
entry point is set, run the external module runner with `capture_error=False`;
otherwise persist the environment variables and run algorithm mode.  There
is no other branch. -/
def train (te : TrainingEnvironment) (w : World) : Tr Unit :=
  match te.user_entry_point with
  | Option.some _ =>
      ⟨[Event.callRunModule te.module_dir te.cmd_args te.env_vars te.module_name false],
        if w.moduleRaises then Except.error Err.moduleError else Except.ok ()⟩
  | Option.none => do
      emit (Event.writeEnvVars te.env_vars)
      run_algorithm_mode w

/-! ## Basic lemmas about the embedding monad -/

theorem Tr.bind_eq {α β : Type} (r : Tr α) (k : α → Tr β) : r >>= k = Tr.bind r k := rfl

theorem Tr.bind_err {α β : Type} (r : Tr α) (k : α → Tr β) (e : Err)
    (h : r.result = Except.error e) : r >>= k = ⟨r.trace, Except.error e⟩ := by
  rw [Tr.bind_eq]; unfold Tr.bind; rw [h]

theorem Tr.bind_ok {α β : Type} (r : Tr α) (k : α → Tr β) (a : α)
    (h : r.result = Except.ok a) : r >>= k = ⟨r.trace ++ (k a).trace, (k a).result⟩ := by
  rw [Tr.bind_eq]; unfold Tr.bind; rw [h]

theorem Tr.bind_result_ok {α β : Type} {r : Tr α} {k : α → Tr β} {b : β}
    (h : (r >>= k).result = Except.ok b) :
    ∃ a, r.result = Except.ok a ∧ (k a).result = Except.ok b := by
  rcases hr : r.result with e | a
  · rw [Tr.bind_err _ _ _ hr] at h; exact absurd h (by simp)
  · rw [Tr.bind_ok _ _ _ hr] at h; exact ⟨a, rfl, h⟩

theorem emit_bind {β : Type} (e : Event) (k : Unit → Tr β) :
    emit e >>= k = ⟨e :: (k ()).trace, (k ()).result⟩ := rfl

@[simp] theorem Tr.pure_trace {α : Type} (a : α) : (pure a : Tr α).trace = [] := rfl

@[simp] theorem Tr.pure_result {α : Type} (a : α) : (pure a : Tr α).result = Except.ok a := rfl

/-! ## Trace-shape lemmas for the loading helpers -/

theorem mem_openAndLoadJson {ev : Event} {w : World} {path : Option String} {e : Event}
    (h : e ∈ (openAndLoadJson ev w path).trace) : e = ev := by
  rcases path with _ | p
  · simp [openAndLoadJson, trFail] at h
  · cases hex : w.fileExists p
    · simp [openAndLoadJson, hex] at h; exact h
    · rcases hc : w.fileContent p with _ | v <;> simp [openAndLoadJson, hex, hc] at h
      all_goals exact h

theorem openAndLoadJson_result_ok {ev : Event} {w : World} {path : Option String} {v : JValue}
    (h : (openAndLoadJson ev w path).result = Except.ok v) :
    ∃ p, path = Option.some p ∧ w.fileExists p = true ∧ w.fileContent p = Option.some v := by
  rcases path with _ | p
  · simp [openAndLoadJson, trFail] at h
  · cases hex : w.fileExists p
    · simp [openAndLoadJson, hex] at h
    · rcases hc : w.fileContent p with _ | v'
      · simp [openAndLoadJson, hex, hc] at h
      · simp [openAndLoadJson, hex, hc] at h
        exact ⟨p, rfl, hex, by rw [hc, h]⟩

theorem asDict_trace (v : JValue) : (asDict v).trace = [] := by
  cases v <;> rfl

theorem asDict_result_ok {v : JValue} {c : Config} (h : (asDict v).result = Except.ok c) :
    v = JValue.obj c := by
  cases v <;> simp [asDict, trFail, pure] at h <;> try exact absurd h (by simp)
  rw [h]

theorem mem_loadTrainingConfigFile {w : World} {e : Event}
    (h : e ∈ (loadTrainingConfigFile w).trace) : e = Event.readTrainConfigFile := by
  unfold loadTrainingConfigFile at h
  rcases hr : (openAndLoadJson Event.readTrainConfigFile w
      (w.env SM_INPUT_TRAINING_CONFIG_FILE)).result with er | v
  · rw [Tr.bind_err _ _ _ hr] at h; exact mem_openAndLoadJson h
  · rw [Tr.bind_ok _ _ _ hr] at h
    rw [List.mem_append, asDict_trace] at h
    rcases h with h | h
    · exact mem_openAndLoadJson h
    · simp at h

theorem loadTrainingConfigFile_result_ok {w : World} {c : Config}
    (h : (loadTrainingConfigFile w).result = Except.ok c) :
    ∃ p, w.env SM_INPUT_TRAINING_CONFIG_FILE = Option.some p ∧ w.fileExists p = true ∧
      w.fileContent p = Option.some (JValue.obj c) := by
  unfold loadTrainingConfigFile at h
  rcases Tr.bind_result_ok h with ⟨v, hv, hc⟩
  rcases openAndLoadJson_result_ok hv with ⟨p, hp, hex, hcon⟩
  exact ⟨p, hp, hex, by rw [hcon, asDict_result_ok hc]⟩

theorem mem_loadCheckpointConfig {w : World} {e : Event}
    (h : e ∈ (loadCheckpointConfig w).trace) :
    e = Event.checkpointPathCheck ∨ e = Event.readCheckpointConfigFile := by
  rcases hk : w.env SM_CHECKPOINT_CONFIG_FILE with _ | p
  · simp [loadCheckpointConfig, hk, trFail] at h
  · cases hex : w.fileExists p
    · simp [loadCheckpointConfig, hk, hex, emit_bind] at h
      exact Or.inl h
    · simp only [loadCheckpointConfig, hk, hex, emit_bind, if_true, List.mem_cons] at h
      rcases h with h | h
      · exact Or.inl h
      · exact Or.inr (mem_openAndLoadJson h)

/-- The call of `validateMlFlowParameters` in `run_algorithm_mode` passes a
single positional argument (a Python list), so the `any(arg is None ...)`
check inspects that list object, never its elements: the validation is a
no-op for every training configuration. -/
theorem validate_call_ok (cfg0 : Config) :
    validateMlFlowParameters (trackingArgsList cfg0) = Except.ok () := rfl

/-! ## Characterizations of the phases of `run_algorithm_mode` -/

theorem preScope_err {w : World} {e : Err}
    (h : (loadTrainingConfigFile w).result = Except.error e) :
    preScope w = ⟨(loadTrainingConfigFile w).trace, Except.error e⟩ := by
  unfold preScope
  rw [Tr.bind_err _ _ _ h]

theorem preScope_ok {w : World} {cfg0 : Config}
    (h : (loadTrainingConfigFile w).result = Except.ok cfg0) :
    preScope w = ⟨(loadTrainingConfigFile w).trace ++
      [Event.validateTracking (trackingArgsList cfg0),
       Event.mlflowSetTrackingUri (optToPy (poppedTrackingUri cfg0)),
       Event.mlflowSetExperiment (optToPy (poppedExperimentName cfg0))],
      Except.ok (strippedConfig cfg0, poppedModelName cfg0)⟩ := by
  unfold preScope
  rw [Tr.bind_ok _ _ _ h]
  rfl

theorem mem_preScope {w : World} {e : Event} (h : e ∈ (preScope w).trace) :
    e = Event.readTrainConfigFile ∨ (∃ a, e = Event.validateTracking a) ∨
    (∃ a, e = Event.mlflowSetTrackingUri a) ∨ (∃ a, e = Event.mlflowSetExperiment a) := by
  rcases hl : (loadTrainingConfigFile w).result with er | cfg0
  · rw [preScope_err hl] at h
    exact Or.inl (mem_loadTrainingConfigFile h)
  · rw [preScope_ok hl] at h
    simp only [List.mem_append, List.mem_cons, List.mem_singleton] at h
    rcases h with h | h | h | h
    · exact Or.inl (mem_loadTrainingConfigFile h)
    · exact Or.inr (Or.inl ⟨_, h⟩)
    · exact Or.inr (Or.inr (Or.inl ⟨_, h⟩))
    · rcases h with h | h
      · exact Or.inr (Or.inr (Or.inr ⟨_, h⟩))
      · simp at h

theorem mem_resolveAndInvoke {w : World} {tc : Config} {mn : Option JValue} {dv ck : JValue}
    {e : Event} (h : e ∈ (resolveAndInvoke w tc mn dv ck).trace) :
    e = Event.resolveTopologyAndPaths ∨
    ∃ args, e = Event.callSagemakerTrain args ∧ args.train_config = tc ∧
      args.modelName = mn ∧ args.data_config = dv ∧ args.checkpoint_config = ck ∧
      w.env SM_CHANNEL_TRAIN = Option.some args.train_path ∧
      args.val_path = w.env SM_CHANNEL_VALIDATION ∧
      args.model_dir = w.env SM_MODEL_DIR ∧
      w.env SM_CURRENT_HOST = Option.some args.sm_current_host ∧
      ∃ s, w.env SM_HOSTS = Option.some s ∧ w.jsonLoads s = Option.some args.sm_hosts := by
  rcases ht : w.env SM_CHANNEL_TRAIN with _ | tp
  · simp [resolveAndInvoke, emit, Tr.bind_eq, Tr.bind, environGet, ht] at h
    exact Or.inl h
  · rcases hh : w.env SM_HOSTS with _ | s
    · simp [resolveAndInvoke, emit, Tr.bind_eq, Tr.bind, environGet, ht, hh] at h
      exact Or.inl h
    · rcases hj : w.jsonLoads s with _ | hv
      · simp [resolveAndInvoke, emit, Tr.bind_eq, Tr.bind, environGet, pyJsonLoads,
          ht, hh, hj] at h
        exact Or.inl h
      · rcases hc : w.env SM_CURRENT_HOST with _ | ch
        · simp [resolveAndInvoke, emit, Tr.bind_eq, Tr.bind, environGet, pyJsonLoads,
            ht, hh, hj, hc] at h
          exact Or.inl h
        · simp [resolveAndInvoke, emit, Tr.bind_eq, Tr.bind, environGet, pyJsonLoads,
            callSagemakerTrain, ht, hh, hj, hc] at h
          rcases h with h | h
          · exact Or.inl h
          · subst h
            refine Or.inr ⟨_, rfl, rfl, rfl, rfl, rfl, ?_, rfl, rfl, ?_, s, ?_, ?_⟩ <;>
              simp [ht, hh, hj, hc]

theorem mem_inScope {w : World} {tc : Config} {mn : Option JValue} {e : Event}
    (h : e ∈ (inScope w tc mn).trace) :
    e = Event.readDataConfigFile ∨ e = Event.checkpointPathCheck ∨
    e = Event.readCheckpointConfigFile ∨ e = Event.resolveTopologyAndPaths ∨
    ∃ args, e = Event.callSagemakerTrain args ∧ args.train_config = tc ∧
      args.modelName = mn ∧
      (openAndLoadJson Event.readDataConfigFile w (w.env SM_INPUT_DATA_CONFIG_FILE)).result =
        Except.ok args.data_config ∧
      (loadCheckpointConfig w).result = Except.ok args.checkpoint_config ∧
      w.env SM_CHANNEL_TRAIN = Option.some args.train_path ∧
      args.val_path = w.env SM_CHANNEL_VALIDATION ∧
      args.model_dir = w.env SM_MODEL_DIR ∧
      w.env SM_CURRENT_HOST = Option.some args.sm_current_host ∧
      ∃ s, w.env SM_HOSTS = Option.some s ∧ w.jsonLoads s = Option.some args.sm_hosts := by
  unfold inScope at h
  rcases hd : (openAndLoadJson Event.readDataConfigFile w
      (w.env SM_INPUT_DATA_CONFIG_FILE)).result with er | dv
  · rw [Tr.bind_err _ _ _ hd] at h
    exact Or.inl (mem_openAndLoadJson h)
  · rw [Tr.bind_ok _ _ _ hd] at h
    rw [List.mem_append] at h
    rcases h with h | h
    · exact Or.inl (mem_openAndLoadJson h)
    · rcases hk : (loadCheckpointConfig w).result with er | ck
      · rw [Tr.bind_err _ _ _ hk] at h
        rcases mem_loadCheckpointConfig h with h | h
        · exact Or.inr (Or.inl h)
        · exact Or.inr (Or.inr (Or.inl h))
      · rw [Tr.bind_ok _ _ _ hk] at h
        rw [List.mem_append] at h
        rcases h with h | h
        · rcases mem_loadCheckpointConfig h with h | h
          · exact Or.inr (Or.inl h)
          · exact Or.inr (Or.inr (Or.inl h))
        · rcases mem_resolveAndInvoke h with h | ⟨args, he, h1, h2, h3, h4, hrest⟩
          · exact Or.inr (Or.inr (Or.inr (Or.inl h)))
          · refine Or.inr (Or.inr (Or.inr (Or.inr ⟨args, he, h1, h2, ?_, ?_, hrest⟩)))
            · rw [h3]
            · rw [h4]

theorem run_err {w : World} {e : Err} (h : (preScope w).result = Except.error e) :
    run_algorithm_mode w = ⟨(preScope w).trace, Except.error e⟩ := by
  unfold run_algorithm_mode
  rw [Tr.bind_err _ _ _ h]

theorem run_ok {w : World} {x : Config × Option JValue}
    (h : (preScope w).result = Except.ok x) :
    run_algorithm_mode w = ⟨(preScope w).trace ++
      (Event.mlflowStartRun :: (inScope w x.1 x.2).trace ++ [Event.mlflowEndRun]),
      (inScope w x.1 x.2).result⟩ := by
  unfold run_algorithm_mode
  rw [Tr.bind_ok _ _ _ h]
  rfl

theorem run_err_trace {w : World} {e : Err} (h : (preScope w).result = Except.error e) :
    (run_algorithm_mode w).trace = (preScope w).trace := by
  rw [run_err h]

theorem run_err_result {w : World} {e : Err} (h : (preScope w).result = Except.error e) :
    (run_algorithm_mode w).result = Except.error e := by
  rw [run_err h]

theorem run_ok_trace {w : World} {x : Config × Option JValue}
    (h : (preScope w).result = Except.ok x) :
    (run_algorithm_mode w).trace = (preScope w).trace ++
      (Event.mlflowStartRun :: (inScope w x.1 x.2).trace ++ [Event.mlflowEndRun]) := by
  rw [run_ok h]

theorem run_ok_result {w : World} {x : Config × Option JValue}
    (h : (preScope w).result = Except.ok x) :
    (run_algorithm_mode w).result = (inScope w x.1 x.2).result := by
  rw [run_ok h]

theorem mem_run_call {w : World} {args : TrainArgs}
    (h : Event.callSagemakerTrain args ∈ (run_algorithm_mode w).trace) :
    ∃ x, (preScope w).result = Except.ok x ∧
      args.train_config = x.1 ∧ args.modelName = x.2 ∧
      (openAndLoadJson Event.readDataConfigFile w (w.env SM_INPUT_DATA_CONFIG_FILE)).result =
        Except.ok args.data_config ∧
      (loadCheckpointConfig w).result = Except.ok args.checkpoint_config ∧
      w.env SM_CHANNEL_TRAIN = Option.some args.train_path ∧
      args.val_path = w.env SM_CHANNEL_VALIDATION ∧
      args.model_dir = w.env SM_MODEL_DIR ∧
      w.env SM_CURRENT_HOST = Option.some args.sm_current_host ∧
      ∃ s, w.env SM_HOSTS = Option.some s ∧ w.jsonLoads s = Option.some args.sm_hosts := by
  rcases hp : (preScope w).result with er | x
  · rw [run_err_trace hp] at h
    rcases mem_preScope h with h | ⟨a, h⟩ | ⟨a, h⟩ | ⟨a, h⟩ <;> exact absurd h (by simp)
  · rw [run_ok_trace hp] at h
    simp only [List.mem_append, List.mem_cons, List.mem_singleton] at h
    rcases h with h | (h | h) | h
    · rcases mem_preScope h with h | ⟨a, h⟩ | ⟨a, h⟩ | ⟨a, h⟩ <;> exact absurd h (by simp)
    · exact absurd h (by simp)
    · rcases mem_inScope h with h | h | h | h | ⟨args', he, hrest⟩
      · exact absurd h (by simp)
      · exact absurd h (by simp)
      · exact absurd h (by simp)
      · exact absurd h (by simp)
      · injection he with hargs
        subst hargs
        exact ⟨x, rfl, hrest⟩
    · exact absurd h (by simp)

/-! ## Result-decomposition lemmas -/

theorem withScope_result {α : Type} (body : Tr α) : (withScope body).result = body.result := rfl

theorem withScope_trace {α : Type} (body : Tr α) :
    (withScope body).trace = Event.mlflowStartRun :: body.trace ++ [Event.mlflowEndRun] := rfl

theorem run_result_ok {w : World} (h : (run_algorithm_mode w).result = Except.ok ()) :
    ∃ x, (preScope w).result = Except.ok x ∧ (inScope w x.1 x.2).result = Except.ok () := by
  unfold run_algorithm_mode at h
  rcases Tr.bind_result_ok h with ⟨x, hx, hs⟩
  exact ⟨x, hx, hs⟩

theorem inScope_result_ok {w : World} {tc : Config} {mn : Option JValue}
    (h : (inScope w tc mn).result = Except.ok ()) :
    ∃ dv ck, (openAndLoadJson Event.readDataConfigFile w
        (w.env SM_INPUT_DATA_CONFIG_FILE)).result = Except.ok dv ∧
      (loadCheckpointConfig w).result = Except.ok ck ∧
      (resolveAndInvoke w tc mn dv ck).result = Except.ok () := by
  unfold inScope at h
  rcases Tr.bind_result_ok h with ⟨dv, hdv, h⟩
  rcases Tr.bind_result_ok h with ⟨ck, hck, h⟩
  exact ⟨dv, ck, hdv, hck, h⟩

theorem inScope_err_data {w : World} {tc : Config} {mn : Option JValue} {e : Err}
    (h : (openAndLoadJson Event.readDataConfigFile w
        (w.env SM_INPUT_DATA_CONFIG_FILE)).result = Except.error e) :
    (inScope w tc mn).result = Except.error e := by
  unfold inScope
  rw [Tr.bind_err _ _ _ h]

theorem inScope_err_ckpt {w : World} {tc : Config} {mn : Option JValue} {dv : JValue} {e : Err}
    (hd : (openAndLoadJson Event.readDataConfigFile w
        (w.env SM_INPUT_DATA_CONFIG_FILE)).result = Except.ok dv)
    (h : (loadCheckpointConfig w).result = Except.error e) :
    (inScope w tc mn).result = Except.error e := by
  unfold inScope
  rw [Tr.bind_ok _ _ _ hd]
  show (Tr.bind (loadCheckpointConfig w) _).result = _
  unfold Tr.bind
  rw [h]

theorem inScope_result_resolve {w : World} {tc : Config} {mn : Option JValue} {dv ck : JValue}
    (hd : (openAndLoadJson Event.readDataConfigFile w
        (w.env SM_INPUT_DATA_CONFIG_FILE)).result = Except.ok dv)
    (hk : (loadCheckpointConfig w).result = Except.ok ck) :
    (inScope w tc mn).result = (resolveAndInvoke w tc mn dv ck).result := by
  unfold inScope
  rw [Tr.bind_ok _ _ _ hd]
  show (Tr.bind (loadCheckpointConfig w) _).result = _
  unfold Tr.bind
  rw [hk]

/-! ## Dict lemmas: popping keys from the training configuration -/

theorem lookupKey_filter_self (cfg : Config) (k : String) :
    lookupKey (cfg.filter fun kv => kv.1 != k) k = Option.none := by
  induction cfg with
  | nil => rfl
  | cons kv rest ih =>
      by_cases hkv : kv.1 = k
      · simp [List.filter_cons, hkv, ih]
      · simp only [List.filter_cons, show (kv.1 != k) = true by simp [hkv], if_true]
        rw [lookupKey]
        simp [hkv, ih]

theorem lookupKey_filter_ne (cfg : Config) (k k' : String) (hne : k' ≠ k) :
    lookupKey (cfg.filter fun kv => kv.1 != k) k' = lookupKey cfg k' := by
  induction cfg with
  | nil => rfl
  | cons kv rest ih =>
      by_cases hkv : kv.1 = k
      · simp only [List.filter_cons, hkv, bne_self_eq_false, if_neg Bool.false_ne_true]
        rw [ih, lookupKey]
        have : kv.1 ≠ k' := by rw [hkv]; exact fun hh => hne hh.symm
        simp [this]
      · simp only [List.filter_cons, show (kv.1 != k) = true by simp [hkv], if_true]
        rw [lookupKey, lookupKey]
        by_cases hk' : kv.1 = k'
        · simp [hk']
        · simp [hk', ih]

theorem strippedConfig_no_tracking (cfg : Config) :
    lookupKey (strippedConfig cfg) MLF_TRACKING_URI = Option.none ∧
    lookupKey (strippedConfig cfg) MLF_EXPERIMENT_NAME = Option.none ∧
    lookupKey (strippedConfig cfg) MLF_MODEL_NAME = Option.none := by
  unfold strippedConfig dictPop
  refine ⟨?_, ?_, ?_⟩
  · rw [lookupKey_filter_ne _ _ _ (by decide), lookupKey_filter_ne _ _ _ (by decide)]
    exact lookupKey_filter_self _ _
  · rw [lookupKey_filter_ne _ _ _ (by decide)]
    exact lookupKey_filter_self _ _
  · exact lookupKey_filter_self _ _

theorem strippedConfig_other_keys (cfg : Config) (k : String)
    (h1 : k ≠ MLF_TRACKING_URI) (h2 : k ≠ MLF_EXPERIMENT_NAME) (h3 : k ≠ MLF_MODEL_NAME) :
    lookupKey (strippedConfig cfg) k = lookupKey cfg k := by
  unfold strippedConfig dictPop
  rw [lookupKey_filter_ne _ _ _ h3, lookupKey_filter_ne _ _ _ h2,
    lookupKey_filter_ne _ _ _ h1]

/-! ## Concrete worlds used to instantiate the theorems -/

def cfgPath : String := "/opt/ml/input/config/hyperparameters.json"

def dataPath : String := "/opt/ml/input/config/inputdataconfig.json"

def ckptPath : String := "/opt/ml/input/config/checkpointconfig.json"

def hostsJson : String := "[\"algo-1\", \"algo-2\"]"

/-- A fully populated SageMaker training environment. -/
def baseEnv : String → Option String := fun k =>
  if k = SM_INPUT_TRAINING_CONFIG_FILE then Option.some cfgPath
  else if k = SM_INPUT_DATA_CONFIG_FILE then Option.some dataPath
  else if k = SM_CHECKPOINT_CONFIG_FILE then Option.some ckptPath
  else if k = SM_CHANNEL_TRAIN then Option.some "/opt/ml/input/data/train"
  else if k = SM_CHANNEL_VALIDATION then Option.some "/opt/ml/input/data/validation"
  else if k = SM_HOSTS then Option.some hostsJson
  else if k = SM_CURRENT_HOST then Option.some "algo-1"
  else if k = SM_MODEL_DIR then Option.some "/opt/ml/model"
  else Option.none

/-- `baseEnv` with one variable removed. -/
def envWithout (k0 : String) : String → Option String := fun k =>
  if k = k0 then Option.none else baseEnv k

/-- A training configuration containing the three tracking keys and one
algorithm hyperparameter. -/
def goodTrainConfig : Config :=
  [(MLF_TRACKING_URI, JValue.str "http://mlflow:5000"),
   (MLF_EXPERIMENT_NAME, JValue.str "exp-1"),
   (MLF_MODEL_NAME, JValue.str "model-1"),
   ("max_depth", JValue.num 5)]

def dataConfigVal : JValue :=
  JValue.obj [("train", JValue.obj [("ContentType", JValue.str "libsvm")])]

def hostsVal : JValue := JValue.arr [JValue.str "algo-1", JValue.str "algo-2"]

def ckptVal : JValue := JValue.obj [("LocalPath", JValue.str "/opt/ml/checkpoints")]

/-- File contents: training config and data config present and valid;
checkpoint content is a parameter (`none` models invalid JSON). -/
def baseContent (trainCfg : JValue) : String → Option JValue := fun p =>
  if p = cfgPath then Option.some trainCfg
  else if p = dataPath then Option.some dataConfigVal
  else if p = ckptPath then Option.some ckptVal
  else Option.none

def baseLoads : String → Option JValue := fun s =>
  if s = hostsJson then Option.some hostsVal else Option.none

/-- Baseline world: everything present and valid, checkpoint file absent,
external calls succeed. -/
def wGood : World :=
  { env := baseEnv,
    fileExists := fun p => if p = cfgPath then true else if p = dataPath then true else false,
    fileContent := baseContent (JValue.obj goodTrainConfig),
    jsonLoads := baseLoads,
    delegateRaises := false, moduleRaises := false }

/-- Like `wGood` but the training configuration contains none of the three
tracking keys. -/
def wMissingTracking : World :=
  { wGood with fileContent := baseContent (JValue.obj [("max_depth", JValue.num 5)]) }

/-- Like `wGood` but the checkpoint config file exists with valid content. -/
def wCkptPresent : World :=
  { wGood with fileExists := fun p =>
      if p = cfgPath then true else if p = dataPath then true
      else if p = ckptPath then true else false }

/-- Like `wCkptPresent` but the checkpoint config file content is invalid. -/
def wCkptInvalid : World :=
  { wCkptPresent with fileContent := fun p =>
      if p = ckptPath then Option.none
      else baseContent (JValue.obj goodTrainConfig) p }

/-- Like `wGood` but the checkpoint-config environment variable is unset. -/
def wNoCkptVar : World := { wGood with env := envWithout SM_CHECKPOINT_CONFIG_FILE }

/-- Like `wGood` but `SM_MODEL_DIR` is unset. -/
def wNoModelDir : World := { wGood with env := envWithout SM_MODEL_DIR }

/-- Like `wGood` but `SM_CHANNEL_TRAIN` is unset. -/
def wNoTrainChannel : World := { wGood with env := envWithout SM_CHANNEL_TRAIN }

/-- Like `wGood` but `SM_HOSTS` is unset. -/
def wNoHosts : World := { wGood with env := envWithout SM_HOSTS }

/-- Like `wGood` but `SM_CURRENT_HOST` is unset. -/
def wNoCurrentHost : World := { wGood with env := envWithout SM_CURRENT_HOST }

/-- Like `wGood` but `SM_CHANNEL_VALIDATION` is unset. -/
def wNoValidation : World := { wGood with env := envWithout SM_CHANNEL_VALIDATION }

/-- Like `wGood` but the delegate trainer raises. -/
def wDelegateRaises : World := { wGood with delegateRaises := true }

/-- The keyword arguments `sagemaker_train` receives in the world `wGood`. -/
def wGoodArgs : TrainArgs :=
  { train_config := [("max_depth", JValue.num 5)],
    data_config := dataConfigVal,
    train_path := "/opt/ml/input/data/train",
    val_path := Option.some "/opt/ml/input/data/validation",
    model_dir := Option.some "/opt/ml/model",
    sm_hosts := hostsVal,
    sm_current_host := "algo-1",
    checkpoint_config := JValue.obj [],
    modelName := Option.some (JValue.str "model-1") }

/-- The full event trace of `run_algorithm_mode` in the world `wGood`. -/
def wGoodTrace : List Event :=
  [Event.readTrainConfigFile,
   Event.validateTracking [PyVal.list [PyVal.val (JValue.str "http://mlflow:5000"),
     PyVal.val (JValue.str "exp-1"), PyVal.val (JValue.str "model-1")]],
   Event.mlflowSetTrackingUri (PyVal.val (JValue.str "http://mlflow:5000")),
   Event.mlflowSetExperiment (PyVal.val (JValue.str "exp-1")),
   Event.mlflowStartRun,
   Event.readDataConfigFile,
   Event.checkpointPathCheck,
   Event.resolveTopologyAndPaths,
   Event.callSagemakerTrain wGoodArgs,
   Event.mlflowEndRun]

/-- A training environment with a user-supplied entry point. -/
def teUser : TrainingEnvironment :=
  { user_entry_point := Option.some "train.py", module_dir := "s3://bucket/code",
    cmd_args := ["--max_depth", "5"], env_vars := [("SM_MODEL_DIR", "/opt/ml/model")],
    module_name := "train" }

/-- The same training environment without a user entry point. -/
def teAlgo : TrainingEnvironment := { teUser with user_entry_point := Option.none }

/-! ## The claims -/

/-- C1: the claim states that a training configuration missing any of the
three tracking keys makes `run_algorithm_mode` fail with the
user-configuration error before the tracking session or data I/O.  The code
cannot do that: `validateMlFlowParameters` is declared with `*args` but the
call site passes the three popped values wrapped inside one Python list, so
`any(arg is None for arg in args)` inspects the list object — never its
elements — and the validator never raises.  First conjunct: the validation
succeeds for every possible list of popped values.  Remaining conjuncts: in
a world whose training configuration has none of the three tracking keys,
the run proceeds past validation (calling `mlflow.set_tracking_uri(None)`
and `mlflow.set_experiment(None)`, opening the tracking run) and completes
successfully instead of raising. -/
theorem C1_validation_never_fires :
    (∀ xs : List PyVal, validateMlFlowParameters [PyVal.list xs] = Except.ok ()) ∧
    (run_algorithm_mode wMissingTracking).result = Except.ok () ∧
    (run_algorithm_mode wMissingTracking).trace.take 5 =
      [Event.readTrainConfigFile,
       Event.validateTracking [PyVal.list [PyVal.none, PyVal.none, PyVal.none]],
       Event.mlflowSetTrackingUri PyVal.none,
       Event.mlflowSetExperiment PyVal.none,
       Event.mlflowStartRun] :=
  ⟨fun _ => rfl, rfl, rfl⟩

/-- C2: whenever the delegate trainer is invoked, the configuration mapping
it receives is the loaded training configuration with exactly the three
tracking keys removed: none of the three keys resolves in the forwarded
mapping, and every other key resolves to its original value. -/
theorem C2_delegate_config_stripped (w : World) (cfg : Config) (args : TrainArgs)
    (hload : (loadTrainingConfigFile w).result = Except.ok cfg)
    (hmem : Event.callSagemakerTrain args ∈ (run_algorithm_mode w).trace) :
    lookupKey args.train_config MLF_TRACKING_URI = Option.none ∧
    lookupKey args.train_config MLF_EXPERIMENT_NAME = Option.none ∧
    lookupKey args.train_config MLF_MODEL_NAME = Option.none ∧
    ∀ k, k ≠ MLF_TRACKING_URI → k ≠ MLF_EXPERIMENT_NAME → k ≠ MLF_MODEL_NAME →
      lookupKey args.train_config k = lookupKey cfg k := by
  rcases mem_run_call hmem with ⟨x, hx, h1, hrest⟩
  have heq : (Except.ok (strippedConfig cfg, poppedModelName cfg) :
      Except Err (Config × Option JValue)) = Except.ok x := by
    rw [← hx, preScope_ok hload]
  injection heq with heq
  subst heq
  refine ⟨?_, ?_, ?_, ?_⟩
  · rw [h1]; exact (strippedConfig_no_tracking cfg).1
  · rw [h1]; exact (strippedConfig_no_tracking cfg).2.1
  · rw [h1]; exact (strippedConfig_no_tracking cfg).2.2
  · intro k hk1 hk2 hk3
    rw [h1]
    exact strippedConfig_other_keys cfg k hk1 hk2 hk3

/-- Witness for C2 at the concrete world `wGood`: the hypotheses hold and
the delegate's configuration retains the hyperparameter key but none of the
tracking keys. -/
theorem C2_witness :
    (loadTrainingConfigFile wGood).result = Except.ok goodTrainConfig ∧
    Event.callSagemakerTrain wGoodArgs ∈ (run_algorithm_mode wGood).trace ∧
    lookupKey wGoodArgs.train_config MLF_TRACKING_URI = Option.none ∧
    lookupKey wGoodArgs.train_config MLF_EXPERIMENT_NAME = Option.none ∧
    lookupKey wGoodArgs.train_config MLF_MODEL_NAME = Option.none ∧
    lookupKey wGoodArgs.train_config "max_depth" = lookupKey goodTrainConfig "max_depth" := by
  have hmem : Event.callSagemakerTrain wGoodArgs ∈ (run_algorithm_mode wGood).trace := by
    rw [show (run_algorithm_mode wGood).trace = wGoodTrace from rfl]
    simp [wGoodTrace]
  have hc := C2_delegate_config_stripped wGood goodTrainConfig wGoodArgs rfl hmem
  exact ⟨rfl, hmem, hc.1, hc.2.1, hc.2.2.1,
    hc.2.2.2 "max_depth" (by decide) (by decide) (by decide)⟩

/-- C3: `train` has exactly two branches.  With a user entry point set it
invokes the module runner with the environment's module directory, command
args, environment variables and module name, with `capture_error=False`, and
the algorithm-mode orchestrator is never invoked (no delegate call and no
tracking run appear in the trace); with no user entry point it persists the
environment variables and runs algorithm mode. -/
theorem C3_mode_dispatch (te : TrainingEnvironment) (w : World) :
    (∀ m, te.user_entry_point = Option.some m →
      train te w = ⟨[Event.callRunModule te.module_dir te.cmd_args te.env_vars
          te.module_name false],
        if w.moduleRaises then Except.error Err.moduleError else Except.ok ()⟩ ∧
      (∀ args, Event.callSagemakerTrain args ∉ (train te w).trace) ∧
      Event.mlflowStartRun ∉ (train te w).trace) ∧
    (te.user_entry_point = Option.none →
      train te w = ⟨Event.writeEnvVars te.env_vars :: (run_algorithm_mode w).trace,
        (run_algorithm_mode w).result⟩) := by
  constructor
  · intro m hm
    refine ⟨by simp [train, hm], ?_, ?_⟩
    · intro args
      simp [train, hm]
    · simp [train, hm]
  · intro hn
    simp [train, hn, emit_bind]

/-- Witness for C3 at concrete training environments: one with a user entry
point, one without. -/
theorem C3_witness :
    teUser.user_entry_point = Option.some "train.py" ∧
    train teUser wGood = ⟨[Event.callRunModule "s3://bucket/code" ["--max_depth", "5"]
      [("SM_MODEL_DIR", "/opt/ml/model")] "train" false], Except.ok ()⟩ ∧
    teAlgo.user_entry_point = Option.none ∧
    train teAlgo wGood = ⟨Event.writeEnvVars [("SM_MODEL_DIR", "/opt/ml/model")] ::
      (run_algorithm_mode wGood).trace, (run_algorithm_mode wGood).result⟩ := by
  refine ⟨rfl, ?_, rfl, ?_⟩
  · exact ((C3_mode_dispatch teUser wGood).1 "train.py" rfl).1
  · exact (C3_mode_dispatch teAlgo wGood).2 rfl

/-- C4: if the checkpoint-config path does not exist, the checkpoint
configuration is the empty mapping and its absence raises no error (the
delegate, whenever invoked, receives the empty mapping); if the path exists
but its content is not valid JSON, the run fails and the delegate trainer is
never invoked. -/
theorem C4_checkpoint_policy (w : World) (p : String)
    (hk : w.env SM_CHECKPOINT_CONFIG_FILE = Option.some p) :
    (w.fileExists p = false →
      loadCheckpointConfig w = ⟨[Event.checkpointPathCheck], Except.ok (JValue.obj [])⟩ ∧
      ∀ args, Event.callSagemakerTrain args ∈ (run_algorithm_mode w).trace →
        args.checkpoint_config = JValue.obj []) ∧
    (w.fileExists p = true → w.fileContent p = Option.none →
      (run_algorithm_mode w).result ≠ Except.ok () ∧
      ∀ args, Event.callSagemakerTrain args ∉ (run_algorithm_mode w).trace) := by
  constructor
  · intro hex
    have hload : loadCheckpointConfig w =
        ⟨[Event.checkpointPathCheck], Except.ok (JValue.obj [])⟩ := by
      simp [loadCheckpointConfig, hk, hex, emit_bind]
    refine ⟨hload, ?_⟩
    intro args hmem
    rcases mem_run_call hmem with ⟨x, hx, h1, h2, hdata, hck, hrest⟩
    have : (Except.ok (JValue.obj []) : Except Err JValue) = Except.ok args.checkpoint_config := by
      rw [← hck, hload]
    injection this with this
    exact this.symm
  · intro hex hcon
    have hload : (loadCheckpointConfig w).result = Except.error (Err.jsonDecodeError p) := by
      simp [loadCheckpointConfig, hk, hex, hcon, emit_bind, openAndLoadJson]
    constructor
    · intro hok
      rcases run_result_ok hok with ⟨x, hx, hin⟩
      rcases inScope_result_ok hin with ⟨dv, ck, hdv, hck, hres⟩
      rw [hload] at hck
      exact absurd hck (by simp)
    · intro args hmem
      rcases mem_run_call hmem with ⟨x, hx, h1, h2, hdata, hck, hrest⟩
      rw [hload] at hck
      exact absurd hck (by simp)

/-- Witness for C4: in `wGood` the checkpoint file is absent and the
delegate receives the empty mapping; in `wCkptInvalid` the file exists with
invalid content and the run fails. -/
theorem C4_witness :
    wGood.env SM_CHECKPOINT_CONFIG_FILE = Option.some ckptPath ∧
    wGood.fileExists ckptPath = false ∧
    wGoodArgs.checkpoint_config = JValue.obj [] ∧
    wCkptInvalid.env SM_CHECKPOINT_CONFIG_FILE = Option.some ckptPath ∧
    wCkptInvalid.fileExists ckptPath = true ∧
    wCkptInvalid.fileContent ckptPath = Option.none ∧
    (run_algorithm_mode wCkptInvalid).result ≠ Except.ok () := by
  refine ⟨rfl, rfl, ?_, rfl, rfl, rfl, ?_⟩
  · exact ((C4_checkpoint_policy wGood ckptPath rfl).1 rfl).2 wGoodArgs (by
      rw [show (run_algorithm_mode wGood).trace = wGoodTrace from rfl]
      simp [wGoodTrace])
  · exact ((C4_checkpoint_policy wCkptInvalid ckptPath rfl).2 rfl rfl).1

/-- C5 counterexample: the claim counts the model output directory among the
required environment variables whose absence is a missing-environment error.
In a world identical to `wGood` except that `SM_MODEL_DIR` is unset, the run
completes successfully and the delegate receives `model_dir = None`: the
code reads the model directory with `os.getenv`, which never raises. -/
theorem C5_counterexample :
    wNoModelDir.env SM_MODEL_DIR = Option.none ∧
    (run_algorithm_mode wNoModelDir).result = Except.ok () ∧
    (run_algorithm_mode wNoModelDir).trace.get? 8 =
      Option.some (Event.callSagemakerTrain { wGoodArgs with model_dir := Option.none }) :=
  ⟨rfl, rfl, rfl⟩

/-- C5 amended: of the four variables the claim calls required, only the
training channel path, the host list and the current host raise the
missing-environment error (`KeyError`) when unset; the model output
directory is read with `os.getenv` and, like the validation channel path,
silently defaults to the absent marker.  An unset validation channel is not
an error: the run completes. -/
theorem C5_required_env_vars (w : World) (x : Config × Option JValue) (dv ck : JValue)
    (hpre : (preScope w).result = Except.ok x)
    (hdv : (openAndLoadJson Event.readDataConfigFile w
        (w.env SM_INPUT_DATA_CONFIG_FILE)).result = Except.ok dv)
    (hck : (loadCheckpointConfig w).result = Except.ok ck) :
    (w.env SM_CHANNEL_TRAIN = Option.none →
      (run_algorithm_mode w).result = Except.error (Err.keyError SM_CHANNEL_TRAIN)) ∧
    (∀ tp, w.env SM_CHANNEL_TRAIN = Option.some tp → w.env SM_HOSTS = Option.none →
      (run_algorithm_mode w).result = Except.error (Err.keyError SM_HOSTS)) ∧
    (∀ tp s hv, w.env SM_CHANNEL_TRAIN = Option.some tp → w.env SM_HOSTS = Option.some s →
      w.jsonLoads s = Option.some hv → w.env SM_CURRENT_HOST = Option.none →
      (run_algorithm_mode w).result = Except.error (Err.keyError SM_CURRENT_HOST)) ∧
    (∀ tp s hv ch, w.env SM_CHANNEL_TRAIN = Option.some tp → w.env SM_HOSTS = Option.some s →
      w.jsonLoads s = Option.some hv → w.env SM_CURRENT_HOST = Option.some ch →
      w.env SM_CHANNEL_VALIDATION = Option.none → w.delegateRaises = false →
      (run_algorithm_mode w).result = Except.ok ()) := by
  have hrun : (run_algorithm_mode w).result = (resolveAndInvoke w x.1 x.2 dv ck).result := by
    rw [run_ok_result hpre, inScope_result_resolve hdv hck]
  refine ⟨?_, ?_, ?_, ?_⟩
  · intro ht
    rw [hrun]
    simp [resolveAndInvoke, emit, Tr.bind_eq, Tr.bind, environGet, ht]
  · intro tp ht hh
    rw [hrun]
    simp [resolveAndInvoke, emit, Tr.bind_eq, Tr.bind, environGet, ht, hh]
  · intro tp s hv ht hh hj hc
    rw [hrun]
    simp [resolveAndInvoke, emit, Tr.bind_eq, Tr.bind, environGet, pyJsonLoads, ht, hh, hj, hc]
  · intro tp s hv ch ht hh hj hc hval hdel
    rw [hrun]
    simp [resolveAndInvoke, emit, Tr.bind_eq, Tr.bind, environGet, pyJsonLoads,
      callSagemakerTrain, ht, hh, hj, hc, hdel]

/-- Witness for C5 (amended): each required variable, when removed from the
otherwise complete environment, yields the corresponding `KeyError`, and the
optional validation channel's absence leaves the run successful. -/
theorem C5_witness :
    wNoTrainChannel.env SM_CHANNEL_TRAIN = Option.none ∧
    (run_algorithm_mode wNoTrainChannel).result = Except.error (Err.keyError SM_CHANNEL_TRAIN) ∧
    wNoHosts.env SM_HOSTS = Option.none ∧
    (run_algorithm_mode wNoHosts).result = Except.error (Err.keyError SM_HOSTS) ∧
    wNoCurrentHost.env SM_CURRENT_HOST = Option.none ∧
    (run_algorithm_mode wNoCurrentHost).result = Except.error (Err.keyError SM_CURRENT_HOST) ∧
    wNoValidation.env SM_CHANNEL_VALIDATION = Option.none ∧
    (run_algorithm_mode wNoValidation).result = Except.ok () := by
  refine ⟨rfl, ?_, rfl, ?_, rfl, ?_, rfl, ?_⟩
  · exact (C5_required_env_vars wNoTrainChannel _ _ _ rfl rfl rfl).1 rfl
  · exact (C5_required_env_vars wNoHosts _ _ _ rfl rfl rfl).2.1
      "/opt/ml/input/data/train" rfl rfl
  · exact (C5_required_env_vars wNoCurrentHost _ _ _ rfl rfl rfl).2.2.1
      "/opt/ml/input/data/train" hostsJson hostsVal rfl rfl rfl rfl
  · exact (C5_required_env_vars wNoValidation _ _ _ rfl rfl rfl).2.2.2
      "/opt/ml/input/data/train" hostsJson hostsVal "algo-1" rfl rfl rfl rfl rfl rfl

/-- In any world, the part of the trace produced before the tracking scope
contains no run-open, run-close, delegate-call or data/checkpoint I/O
event. -/
theorem preScope_event_kinds (w : World) :
    ∀ e ∈ (preScope w).trace, e.isStartRun = false ∧ e.isEndRun = false ∧
      e.isDelegateCall = false ∧ e.isDataOrCheckpointIO = false := by
  intro e he
  rcases mem_preScope he with h | ⟨a, h⟩ | ⟨a, h⟩ | ⟨a, h⟩ <;> subst h <;>
    exact ⟨rfl, rfl, rfl, rfl⟩

/-- In any world, the scope body's trace contains no run-open or run-close
event. -/
theorem inScope_event_kinds (w : World) (tc : Config) (mn : Option JValue) :
    ∀ e ∈ (inScope w tc mn).trace, e.isStartRun = false ∧ e.isEndRun = false := by
  intro e he
  rcases mem_inScope he with h | h | h | h | ⟨args, h, hrest⟩ <;> subst h <;>
    exact ⟨rfl, rfl⟩

/-- C6: the tracking run is balanced on every path: every trace of
`run_algorithm_mode` contains equally many run-open and run-close events and
never more than one open; and when anything inside the scope raises after
the run was opened, the error propagates out of the orchestrator and the
run-close event is nevertheless in the trace. -/
theorem C6_scope_balanced (w : World) :
    (List.countP (fun e => e.isStartRun) (run_algorithm_mode w).trace =
      List.countP (fun e => e.isEndRun) (run_algorithm_mode w).trace ∧
     List.countP (fun e => e.isStartRun) (run_algorithm_mode w).trace ≤ 1) ∧
    (∀ x er, (preScope w).result = Except.ok x →
      (inScope w x.1 x.2).result = Except.error er →
      (run_algorithm_mode w).result = Except.error er ∧
      Event.mlflowEndRun ∈ (run_algorithm_mode w).trace) := by
  constructor
  · rcases hp : (preScope w).result with er | x
    · rw [run_err_trace hp]
      have h1 : List.countP (fun e => e.isStartRun) (preScope w).trace = 0 := by
        rw [List.countP_eq_zero]
        intro e he
        simp [(preScope_event_kinds w e he).1]
      have h2 : List.countP (fun e => e.isEndRun) (preScope w).trace = 0 := by
        rw [List.countP_eq_zero]
        intro e he
        simp [(preScope_event_kinds w e he).2.1]
      rw [h1, h2]
      exact ⟨rfl, by omega⟩
    · rw [run_ok_trace hp]
      have h1 : List.countP (fun e => e.isStartRun) (preScope w).trace = 0 := by
        rw [List.countP_eq_zero]
        intro e he
        simp [(preScope_event_kinds w e he).1]
      have h2 : List.countP (fun e => e.isEndRun) (preScope w).trace = 0 := by
        rw [List.countP_eq_zero]
        intro e he
        simp [(preScope_event_kinds w e he).2.1]
      have h3 : List.countP (fun e => e.isStartRun) (inScope w x.1 x.2).trace = 0 := by
        rw [List.countP_eq_zero]
        intro e he
        simp [(inScope_event_kinds w x.1 x.2 e he).1]
      have h4 : List.countP (fun e => e.isEndRun) (inScope w x.1 x.2).trace = 0 := by
        rw [List.countP_eq_zero]
        intro e he
        simp [(inScope_event_kinds w x.1 x.2 e he).2]
      simp only [List.countP_append, List.countP_cons, List.countP_nil]
      rw [h1, h2, h3, h4]
      simp [Event.isStartRun, Event.isEndRun]
  · intro x er hpre hin
    constructor
    · rw [run_ok_result hpre, hin]
    · rw [run_ok_trace hpre]
      simp

/-- Witness for C6: with the delegate raising, the error propagates out of
`run_algorithm_mode` and the run-close event is in the trace. -/
theorem C6_witness :
    (preScope wDelegateRaises).result =
      Except.ok ([("max_depth", JValue.num 5)], Option.some (JValue.str "model-1")) ∧
    (inScope wDelegateRaises [("max_depth", JValue.num 5)]
      (Option.some (JValue.str "model-1"))).result = Except.error Err.delegateError ∧
    (run_algorithm_mode wDelegateRaises).result = Except.error Err.delegateError ∧
    Event.mlflowEndRun ∈ (run_algorithm_mode wDelegateRaises).trace := by
  refine ⟨rfl, rfl, ?_, ?_⟩
  · exact ((C6_scope_balanced wDelegateRaises).2
      ([("max_depth", JValue.num 5)], Option.some (JValue.str "model-1"))
      Err.delegateError rfl rfl).1
  · exact ((C6_scope_balanced wDelegateRaises).2
      ([("max_depth", JValue.num 5)], Option.some (JValue.str "model-1"))
      Err.delegateError rfl rfl).2

/-- C7: on a successful algorithm-mode run (with the checkpoint file
present) the trace is exactly: (1) training-config read, (2) tracking
validation, (3) tracking-client configuration and scope opening, (4)
data-config read inside the scope, (5) conditional checkpoint-config load,
(6) environment-variable resolution, (7) the delegate invocation — and the
scope close.  In particular the data configuration is read only after the
validation ran and the tracking run was opened. -/
theorem C7_strict_order (w : World) (p dp kp tp s ch : String) (cfg0 : Config)
    (dv kv hv : JValue)
    (hp : w.env SM_INPUT_TRAINING_CONFIG_FILE = Option.some p)
    (hpe : w.fileExists p = true) (hpc : w.fileContent p = Option.some (JValue.obj cfg0))
    (hdp : w.env SM_INPUT_DATA_CONFIG_FILE = Option.some dp)
    (hde : w.fileExists dp = true) (hdc : w.fileContent dp = Option.some dv)
    (hkp : w.env SM_CHECKPOINT_CONFIG_FILE = Option.some kp)
    (hke : w.fileExists kp = true) (hkc : w.fileContent kp = Option.some kv)
    (ht : w.env SM_CHANNEL_TRAIN = Option.some tp)
    (hh : w.env SM_HOSTS = Option.some s) (hj : w.jsonLoads s = Option.some hv)
    (hc : w.env SM_CURRENT_HOST = Option.some ch) :
    (run_algorithm_mode w).trace =
      [Event.readTrainConfigFile,
       Event.validateTracking (trackingArgsList cfg0),
       Event.mlflowSetTrackingUri (optToPy (poppedTrackingUri cfg0)),
       Event.mlflowSetExperiment (optToPy (poppedExperimentName cfg0)),
       Event.mlflowStartRun,
       Event.readDataConfigFile,
       Event.checkpointPathCheck,
       Event.readCheckpointConfigFile,
       Event.resolveTopologyAndPaths,
       Event.callSagemakerTrain
         { train_config := strippedConfig cfg0, data_config := dv, train_path := tp,
           val_path := w.env SM_CHANNEL_VALIDATION, model_dir := w.env SM_MODEL_DIR,
           sm_hosts := hv, sm_current_host := ch, checkpoint_config := kv,
           modelName := poppedModelName cfg0 },
       Event.mlflowEndRun] := by
  have hload : loadTrainingConfigFile w = ⟨[Event.readTrainConfigFile], Except.ok cfg0⟩ := by
    simp [loadTrainingConfigFile, openAndLoadJson, asDict, Tr.bind_eq, Tr.bind, hp, hpe, hpc]
  have hps := @preScope_ok w cfg0 (by rw [hload])
  rw [run_ok_trace (by rw [hps])]
  rw [hps, hload]
  simp only [inScope, resolveAndInvoke, loadCheckpointConfig, openAndLoadJson, environGet,
    pyJsonLoads, callSagemakerTrain, emit, liftE, Tr.bind_eq, Tr.bind,
    hdp, hde, hdc, hkp, hke, hkc, ht, hh, hj, hc]
  rfl

/-- Witness for C7 at the concrete world `wCkptPresent`. -/
theorem C7_witness :
    wCkptPresent.env SM_INPUT_TRAINING_CONFIG_FILE = Option.some cfgPath ∧
    wCkptPresent.fileExists cfgPath = true ∧
    wCkptPresent.fileContent cfgPath = Option.some (JValue.obj goodTrainConfig) ∧
    wCkptPresent.env SM_INPUT_DATA_CONFIG_FILE = Option.some dataPath ∧
    wCkptPresent.fileExists dataPath = true ∧
    wCkptPresent.fileContent dataPath = Option.some dataConfigVal ∧
    wCkptPresent.env SM_CHECKPOINT_CONFIG_FILE = Option.some ckptPath ∧
    wCkptPresent.fileExists ckptPath = true ∧
    wCkptPresent.fileContent ckptPath = Option.some ckptVal ∧
    wCkptPresent.env SM_CHANNEL_TRAIN = Option.some "/opt/ml/input/data/train" ∧
    wCkptPresent.env SM_HOSTS = Option.some hostsJson ∧
    wCkptPresent.jsonLoads hostsJson = Option.some hostsVal ∧
    wCkptPresent.env SM_CURRENT_HOST = Option.some "algo-1" ∧
    (run_algorithm_mode wCkptPresent).trace =
      [Event.readTrainConfigFile,
       Event.validateTracking (trackingArgsList goodTrainConfig),
       Event.mlflowSetTrackingUri (optToPy (poppedTrackingUri goodTrainConfig)),
       Event.mlflowSetExperiment (optToPy (poppedExperimentName goodTrainConfig)),
       Event.mlflowStartRun,
       Event.readDataConfigFile,
       Event.checkpointPathCheck,
       Event.readCheckpointConfigFile,
       Event.resolveTopologyAndPaths,
       Event.callSagemakerTrain
         { train_config := strippedConfig goodTrainConfig, data_config := dataConfigVal,
           train_path := "/opt/ml/input/data/train",
           val_path := wCkptPresent.env SM_CHANNEL_VALIDATION,
           model_dir := wCkptPresent.env SM_MODEL_DIR,
           sm_hosts := hostsVal, sm_current_host := "algo-1", checkpoint_config := ckptVal,
           modelName := poppedModelName goodTrainConfig },
       Event.mlflowEndRun] := by
  refine ⟨rfl, rfl, rfl, rfl, rfl, rfl, rfl, rfl, rfl, rfl, rfl, rfl, rfl, ?_⟩
  exact C7_strict_order wCkptPresent cfgPath dataPath ckptPath "/opt/ml/input/data/train"
    hostsJson "algo-1" goodTrainConfig dataConfigVal ckptVal hostsVal
    rfl rfl rfl rfl rfl rfl rfl rfl rfl rfl rfl rfl rfl

/-- C8 counterexample: the claim forbids, among others, training-config
file I/O before the tracking scope acquisition.  In `wGood` the
training-config read is the very first trace event while the scope opens
only at position four: the four events preceding the scope acquisition
include the training-config file read (and no run-open event), because the
tracking parameters are extracted from that very file. -/
theorem C8_counterexample :
    (run_algorithm_mode wGood).trace.take 4 =
      [Event.readTrainConfigFile,
       Event.validateTracking [PyVal.list [PyVal.val (JValue.str "http://mlflow:5000"),
         PyVal.val (JValue.str "exp-1"), PyVal.val (JValue.str "model-1")]],
       Event.mlflowSetTrackingUri (PyVal.val (JValue.str "http://mlflow:5000")),
       Event.mlflowSetExperiment (PyVal.val (JValue.str "exp-1"))] ∧
    (run_algorithm_mode wGood).trace.get? 4 = Option.some Event.mlflowStartRun :=
  ⟨rfl, rfl⟩

/-- C8 amended: no data-config or checkpoint-config I/O occurs before the
tracking scope acquisition succeeds — any prefix of the trace with no
run-open event contains no data/checkpoint I/O event.  (The claim's
inclusion of training-config I/O is refuted by `C8_counterexample`: that
read necessarily precedes the scope, since the tracking parameters come
from it.) -/
theorem C8_no_data_io_before_scope (w : World) (n : Nat)
    (h : Event.mlflowStartRun ∉ (run_algorithm_mode w).trace.take n) :
    ∀ e ∈ (run_algorithm_mode w).trace.take n, e.isDataOrCheckpointIO = false := by
  intro e he
  rcases hp : (preScope w).result with er | x
  · rw [run_err_trace hp] at he
    exact (preScope_event_kinds w e (List.mem_of_mem_take he)).2.2.2
  · rw [run_ok_trace hp] at he h
    by_cases hn : n ≤ (preScope w).trace.length
    · rw [List.take_append_eq_append_take, Nat.sub_eq_zero_of_le hn, List.take_zero,
        List.append_nil] at he
      exact (preScope_event_kinds w e (List.mem_of_mem_take he)).2.2.2
    · exfalso
      apply h
      rw [List.take_append_eq_append_take]
      apply List.mem_append_right
      rcases hm : n - (preScope w).trace.length with _ | m
      · omega
      · simp [List.take_succ_cons]

/-- Witness for C8 (amended) at `wGood` with the prefix of length four. -/
theorem C8_witness :
    Event.mlflowStartRun ∉ (run_algorithm_mode wGood).trace.take 4 ∧
    ∀ e ∈ (run_algorithm_mode wGood).trace.take 4, e.isDataOrCheckpointIO = false := by
  have hnot : Event.mlflowStartRun ∉ (run_algorithm_mode wGood).trace.take 4 := by
    rw [show (run_algorithm_mode wGood).trace = wGoodTrace from rfl]
    simp [wGoodTrace]
  exact ⟨hnot, C8_no_data_io_before_scope wGood 4 hnot⟩

/-- Closed form of the resolve-and-invoke block once the three required
environment variables are present and the host string parses. -/
theorem resolveAndInvoke_eq {w : World} {tc : Config} {mn : Option JValue} {dv ck : JValue}
    {tp s ch : String} {hv : JValue}
    (ht : w.env SM_CHANNEL_TRAIN = Option.some tp)
    (hh : w.env SM_HOSTS = Option.some s) (hj : w.jsonLoads s = Option.some hv)
    (hc : w.env SM_CURRENT_HOST = Option.some ch) :
    resolveAndInvoke w tc mn dv ck =
      ⟨[Event.resolveTopologyAndPaths,
        Event.callSagemakerTrain
          { train_config := tc, data_config := dv, train_path := tp,
            val_path := w.env SM_CHANNEL_VALIDATION, model_dir := w.env SM_MODEL_DIR,
            sm_hosts := hv, sm_current_host := ch, checkpoint_config := ck,
            modelName := mn }],
       if w.delegateRaises then Except.error Err.delegateError else Except.ok ()⟩ := by
  simp [resolveAndInvoke, emit, Tr.bind_eq, Tr.bind, environGet, pyJsonLoads,
    callSagemakerTrain, ht, hh, hj, hc]

/-- Trace decomposition of the scope body when both configuration loads
succeed. -/
theorem inScope_trace_ok {w : World} {tc : Config} {mn : Option JValue} {dv ck : JValue}
    (hdv : (openAndLoadJson Event.readDataConfigFile w
        (w.env SM_INPUT_DATA_CONFIG_FILE)).result = Except.ok dv)
    (hck : (loadCheckpointConfig w).result = Except.ok ck) :
    (inScope w tc mn).trace =
      (openAndLoadJson Event.readDataConfigFile w (w.env SM_INPUT_DATA_CONFIG_FILE)).trace ++
      ((loadCheckpointConfig w).trace ++ (resolveAndInvoke w tc mn dv ck).trace) := by
  unfold inScope
  rw [Tr.bind_ok _ _ _ hdv]
  show (openAndLoadJson Event.readDataConfigFile w (w.env SM_INPUT_DATA_CONFIG_FILE)).trace ++
      (loadCheckpointConfig w >>= fun ck0 => resolveAndInvoke w tc mn dv ck0).trace = _
  rw [Tr.bind_ok _ _ _ hck]

theorem countP_delegate_data (w : World) :
    List.countP (fun e => e.isDelegateCall)
      (openAndLoadJson Event.readDataConfigFile w (w.env SM_INPUT_DATA_CONFIG_FILE)).trace
      = 0 := by
  rw [List.countP_eq_zero]
  intro e he
  simp [mem_openAndLoadJson he, Event.isDelegateCall]

theorem countP_delegate_ckpt (w : World) :
    List.countP (fun e => e.isDelegateCall) (loadCheckpointConfig w).trace = 0 := by
  rw [List.countP_eq_zero]
  intro e he
  rcases mem_loadCheckpointConfig he with h | h <;> simp [h, Event.isDelegateCall]

theorem countP_delegate_preScope (w : World) :
    List.countP (fun e => e.isDelegateCall) (preScope w).trace = 0 := by
  rw [List.countP_eq_zero]
  intro e he
  simp [(preScope_event_kinds w e he).2.2.1]

/-- C9: with no user entry point, on a run in which all loads and
resolutions succeed, exactly one delegate call appears in the trace of
`train`, and every delegate call receives the parsed host list and the
current-host identifier unchanged. -/
theorem C9_single_delegate_call (te : TrainingEnvironment) (w : World)
    (x : Config × Option JValue) (dv ck hv : JValue) (tp s ch : String)
    (hte : te.user_entry_point = Option.none)
    (hpre : (preScope w).result = Except.ok x)
    (hdv : (openAndLoadJson Event.readDataConfigFile w
        (w.env SM_INPUT_DATA_CONFIG_FILE)).result = Except.ok dv)
    (hck : (loadCheckpointConfig w).result = Except.ok ck)
    (ht : w.env SM_CHANNEL_TRAIN = Option.some tp)
    (hh : w.env SM_HOSTS = Option.some s) (hj : w.jsonLoads s = Option.some hv)
    (hc : w.env SM_CURRENT_HOST = Option.some ch) :
    List.countP (fun e => e.isDelegateCall) (train te w).trace = 1 ∧
    ∀ args, Event.callSagemakerTrain args ∈ (train te w).trace →
      args.sm_hosts = hv ∧ args.sm_current_host = ch := by
  have htr : (train te w).trace =
      Event.writeEnvVars te.env_vars :: (run_algorithm_mode w).trace := by
    simp [train, hte, emit_bind]
  have hin : List.countP (fun e => e.isDelegateCall) (inScope w x.1 x.2).trace = 1 := by
    rw [inScope_trace_ok hdv hck]
    simp only [List.countP_append]
    rw [countP_delegate_data w, countP_delegate_ckpt w, resolveAndInvoke_eq ht hh hj hc]
    simp [List.countP_cons, Event.isDelegateCall]
  constructor
  · rw [htr, List.countP_cons, run_ok_trace hpre]
    simp only [List.countP_append, List.countP_cons, List.countP_nil]
    rw [countP_delegate_preScope w, hin]
    simp [Event.isDelegateCall]
  · intro args hmem
    rw [htr] at hmem
    rcases List.mem_cons.mp hmem with h | h
    · exact absurd h (by simp)
    · rcases mem_run_call h with
        ⟨x', hx', h1, h2, hdata, hckpt, htp, hval, hmd, hcur, s', hs', hj'⟩
      constructor
      · have hss : s' = s := Option.some.inj (hs'.symm.trans hh)
        rw [hss] at hj'
        exact Option.some.inj (hj'.symm.trans hj)
      · exact Option.some.inj (hcur.symm.trans hc)

/-- Witness for C9 at the concrete environment `teAlgo` and world `wGood`. -/
theorem C9_witness :
    teAlgo.user_entry_point = Option.none ∧
    List.countP (fun e => e.isDelegateCall) (train teAlgo wGood).trace = 1 ∧
    wGoodArgs.sm_hosts = hostsVal ∧ wGoodArgs.sm_current_host = "algo-1" := by
  have h := C9_single_delegate_call teAlgo wGood
    ([("max_depth", JValue.num 5)], Option.some (JValue.str "model-1"))
    dataConfigVal (JValue.obj []) hostsVal "/opt/ml/input/data/train" hostsJson "algo-1"
    rfl rfl rfl rfl rfl rfl rfl rfl
  refine ⟨rfl, h.1, ?_⟩
  exact h.2 wGoodArgs (by
    rw [show (train teAlgo wGood).trace =
      Event.writeEnvVars teAlgo.env_vars :: wGoodTrace from rfl]
    simp [wGoodTrace])

/-- C10: when the checkpoint-config environment variable itself is unset —
as opposed to the file at its path being absent — the `os.path.exists(None)`
check raises `TypeError` inside the already-open tracking scope; the run
fails instead of defaulting to an empty checkpoint configuration, and the
delegate trainer is never invoked. -/
theorem C10_unset_ckpt_var (w : World) (x : Config × Option JValue) (dv : JValue)
    (hpre : (preScope w).result = Except.ok x)
    (hdv : (openAndLoadJson Event.readDataConfigFile w
        (w.env SM_INPUT_DATA_CONFIG_FILE)).result = Except.ok dv)
    (hk : w.env SM_CHECKPOINT_CONFIG_FILE = Option.none) :
    loadCheckpointConfig w = ⟨[], Except.error Err.typeError⟩ ∧
    (run_algorithm_mode w).result = Except.error Err.typeError ∧
    Event.mlflowStartRun ∈ (run_algorithm_mode w).trace ∧
    Event.mlflowEndRun ∈ (run_algorithm_mode w).trace ∧
    ∀ args, Event.callSagemakerTrain args ∉ (run_algorithm_mode w).trace := by
  have hL : loadCheckpointConfig w = ⟨[], Except.error Err.typeError⟩ := by
    simp [loadCheckpointConfig, hk, trFail]
  refine ⟨hL, ?_, ?_, ?_, ?_⟩
  · rw [run_ok_result hpre, inScope_err_ckpt hdv (by rw [hL])]
  · rw [run_ok_trace hpre]
    simp
  · rw [run_ok_trace hpre]
    simp
  · intro args hmem
    rcases mem_run_call hmem with ⟨x', hx', h1, h2, hdata, hck, hrest⟩
    rw [hL] at hck
    exact absurd hck (by simp)

/-- Witness for C10 at the concrete world `wNoCkptVar`. -/
theorem C10_witness :
    wNoCkptVar.env SM_CHECKPOINT_CONFIG_FILE = Option.none ∧
    (preScope wNoCkptVar).result =
      Except.ok ([("max_depth", JValue.num 5)], Option.some (JValue.str "model-1")) ∧
    (run_algorithm_mode wNoCkptVar).result = Except.error Err.typeError ∧
    Event.mlflowStartRun ∈ (run_algorithm_mode wNoCkptVar).trace := by
  refine ⟨rfl, rfl, ?_, ?_⟩
  · exact (C10_unset_ckpt_var wNoCkptVar
      ([("max_depth", JValue.num 5)], Option.some (JValue.str "model-1"))
      dataConfigVal rfl rfl rfl).2.1
  · exact (C10_unset_ckpt_var wNoCkptVar
      ([("max_depth", JValue.num 5)], Option.some (JValue.str "model-1"))
      dataConfigVal rfl rfl rfl).2.2.1

end SMXGB
